import Mathlib

/-
Verification development for the WorkBot+ job execution and result-correlation
layer.  The definitions below are shallow embeddings of the JavaScript source:

  * src/backend/src/services/dataAnalystService.js   (execFile and spawn revisions)
  * src/backend/src/services/resumeScreenerService.js (legacy exec revision)
  * src/unnamed/part_004                              (execFile revisions of screenResumes)
  * src/backend/src/routes/bots.js                    (legacy and v2 route revisions)

JavaScript runtime primitives used by that code (String.prototype.trim,
JSON.parse, POSIX shell word splitting performed by child_process.exec) are
modelled explicitly below so that the embedded services are executable.
-/

namespace WorkBot

/-- Whitespace characters removed by JavaScript String.prototype.trim
(the ASCII subset; the source never feeds it other Unicode space). -/
def isJsWs (c : Char) : Bool :=
  c = ' ' || c = '\t' || c = '\n' || c = '\r' || c = '\x0b' || c = '\x0c'

/-- Model of JavaScript String.prototype.trim. -/
def jsTrim (s : String) : String :=
  String.mk (((s.data.dropWhile isJsWs).reverse.dropWhile isJsWs).reverse)

/-- Model of the JavaScript `a || b` idiom on strings: empty string is falsy. -/
def jsOr (a b : String) : String :=
  if a = "" then b else a

/-- The opening brace character (written via its code point). -/
def lbrace : Char := '\x7b'

/-- The closing brace character (written via its code point). -/
def rbrace : Char := '\x7d'

/-- Index of the first occurrence of a character, as String.prototype.indexOf
(none models the -1 result). -/
def firstIdxOf (c : Char) : List Char → Option Nat
  | [] => none
  | d :: ds =>
    if d = c then some 0
    else (firstIdxOf c ds).map (· + 1)

/-- Index of the last occurrence of a character, as String.prototype.lastIndexOf. -/
def lastIdxOf (c : Char) (cs : List Char) : Option Nat :=
  (firstIdxOf c cs.reverse).map (fun k => cs.length - 1 - k)

/-- Model of String.prototype.slice(i, j) for 0 ≤ i ≤ j. -/
def sliceStr (s : String) (i j : Nat) : String :=
  String.mk ((s.data.drop i).take (j - i))

/-! ## JSON documents and a model of JSON.parse

The worker's stdout document is JSON; the services treat it as an opaque
structured value, inspecting only `success` and `summary`.  Numbers are kept
as their source lexemes because the services never do arithmetic on them. -/

inductive Json where
  | jnull : Json
  | jbool : Bool → Json
  | jnum : String → Json
  | jstr : String → Json
  | jarr : List Json → Json
  | jobj : List (String × Json) → Json

/-- JSON structural whitespace accepted by JSON.parse. -/
def isJsonWs (c : Char) : Bool :=
  c = ' ' || c = '\t' || c = '\n' || c = '\r'

def skipJsonWs : List Char → List Char
  | [] => []
  | c :: cs => if isJsonWs c then skipJsonWs cs else c :: cs

def hexVal (c : Char) : Option Nat :=
  if '0' ≤ c ∧ c ≤ '9' then some (c.toNat - '0'.toNat)
  else if 'a' ≤ c ∧ c ≤ 'f' then some (c.toNat - 'a'.toNat + 10)
  else if 'A' ≤ c ∧ c ≤ 'F' then some (c.toNat - 'A'.toNat + 10)
  else none

/-- Parse the body of a JSON string literal (after the opening quote),
returning the decoded string and the remaining input. -/
def parseJStrF : Nat → List Char → Option (String × List Char)
  | 0, _ => none
  | _ + 1, [] => none
  | f + 1, c :: cs =>
    if c = '"' then some ("", cs)
    else if c = '\\' then
      match cs with
      | [] => none
      | e :: cs2 =>
        let cont (d : Char) (rest : List Char) : Option (String × List Char) :=
          (parseJStrF f rest).map (fun p => (String.mk (d :: p.1.data), p.2))
        if e = '"' then cont '"' cs2
        else if e = '\\' then cont '\\' cs2
        else if e = '/' then cont '/' cs2
        else if e = 'b' then cont '\x08' cs2
        else if e = 'f' then cont '\x0c' cs2
        else if e = 'n' then cont '\n' cs2
        else if e = 'r' then cont '\r' cs2
        else if e = 't' then cont '\t' cs2
        else if e = 'u' then
          match cs2 with
          | a :: b :: c2 :: d :: rest =>
            match hexVal a, hexVal b, hexVal c2, hexVal d with
            | some va, some vb, some vc, some vd =>
              let n := ((va * 16 + vb) * 16 + vc) * 16 + vd
              if n.isValidChar then cont (Char.ofNat n) rest else none
            | _, _, _, _ => none
          | _ => none
        else none
    else if c.toNat < 32 then none
    else (parseJStrF f cs).map (fun p => (String.mk (c :: p.1.data), p.2))

def parseJStr (cs : List Char) : Option (String × List Char) :=
  parseJStrF (cs.length + 1) cs

def isDigitChar (c : Char) : Bool := '0' ≤ c && c ≤ '9'

/-- Parse a JSON number lexeme (sign, integer part without redundant leading
zeros, optional fraction, optional exponent), returning the lexeme. -/
def parseJNum (cs : List Char) : Option (String × List Char) :=
  let (sign, cs1) :=
    match cs with
    | '-' :: rest => (['-'], rest)
    | _ => (([] : List Char), cs)
  match cs1 with
  | d :: rest =>
    if ¬ isDigitChar d then none
    else
      let (intPart, afterInt) :=
        if d = '0' then (['0'], rest)
        else ((d :: rest).takeWhile isDigitChar, (d :: rest).dropWhile isDigitChar)
      let (fracPart, afterFrac) :=
        match afterInt with
        | '.' :: fr =>
          let ds := fr.takeWhile isDigitChar
          if ds = [] then ([], afterInt) else ('.' :: ds, fr.dropWhile isDigitChar)
        | _ => ([], afterInt)
      let badFrac : Bool :=
        match afterInt with
        | '.' :: fr => (fr.takeWhile isDigitChar).isEmpty
        | _ => false
      if badFrac then none
      else
        let (expPart, afterExp) :=
          match afterFrac with
          | e :: er =>
            if e = 'e' ∨ e = 'E' then
              let (es, er2) :=
                match er with
                | s :: er2 => if s = '+' ∨ s = '-' then ([s], er2) else ([], er)
                | [] => ([], er)
              let ds := er2.takeWhile isDigitChar
              if ds = [] then ([], afterFrac)
              else (e :: (es ++ ds), er2.dropWhile isDigitChar)
            else ([], afterFrac)
          | [] => ([], afterFrac)
        some (String.mk (sign ++ intPart ++ fracPart ++ expPart), afterExp)
  | [] => none

/-- Expect the literal characters of `lit` at the head of the input. -/
def expectLit : List Char → List Char → Option (List Char)
  | [], cs => some cs
  | l :: ls, c :: cs => if c = l then expectLit ls cs else none
  | _ :: _, [] => none

mutual

/-- Fuel-indexed recursive-descent parser for one JSON value. -/
def parseJVal : Nat → List Char → Option (Json × List Char)
  | 0, _ => none
  | f + 1, cs =>
    match skipJsonWs cs with
    | [] => none
    | c :: rest =>
      if c = '"' then (parseJStr rest).map (fun p => (Json.jstr p.1, p.2))
      else if c = 'n' then (expectLit ['u', 'l', 'l'] rest).map (fun r => (Json.jnull, r))
      else if c = 't' then (expectLit ['r', 'u', 'e'] rest).map (fun r => (Json.jbool true, r))
      else if c = 'f' then (expectLit ['a', 'l', 's', 'e'] rest).map (fun r => (Json.jbool false, r))
      else if c = lbrace then
        match skipJsonWs rest with
        | d :: rest2 =>
          if d = rbrace then some (Json.jobj [], rest2)
          else
            (parseJPairs f (d :: rest2)).map (fun p => (Json.jobj p.1, p.2))
        | [] => none
      else if c = '[' then
        match skipJsonWs rest with
        | d :: rest2 =>
          if d = ']' then some (Json.jarr [], rest2)
          else
            (parseJElems f (d :: rest2)).map (fun p => (Json.jarr p.1, p.2))
        | [] => none
      else
        (parseJNum (c :: rest)).map (fun p => (Json.jnum p.1, p.2))

/-- Parse one or more comma-separated object members, consuming the closing brace. -/
def parseJPairs : Nat → List Char → Option (List (String × Json) × List Char)
  | 0, _ => none
  | f + 1, cs =>
    match skipJsonWs cs with
    | c :: rest =>
      if c = '"' then
        match parseJStr rest with
        | some (k, r1) =>
          match skipJsonWs r1 with
          | ':' :: r2 =>
            match parseJVal f r2 with
            | some (v, r3) =>
              match skipJsonWs r3 with
              | ',' :: r4 => (parseJPairs f r4).map (fun p => ((k, v) :: p.1, p.2))
              | d :: r4 => if d = rbrace then some ([(k, v)], r4) else none
              | [] => none
            | none => none
          | _ => none
        | none => none
      else none
    | [] => none

/-- Parse one or more comma-separated array elements, consuming the closing bracket. -/
def parseJElems : Nat → List Char → Option (List Json × List Char)
  | 0, _ => none
  | f + 1, cs =>
    match parseJVal f cs with
    | some (v, r1) =>
      match skipJsonWs r1 with
      | ',' :: r2 => (parseJElems f r2).map (fun p => (v :: p.1, p.2))
      | ']' :: r2 => some ([v], r2)
      | _ => none
    | none => none

end

/-- Model of JSON.parse: one JSON value, optionally surrounded by structural
whitespace; anything else raises (modelled as none). -/
def jsonParse (s : String) : Option Json :=
  match parseJVal (2 * s.length + 8) s.data with
  | some (j, rest) => if skipJsonWs rest = [] then some j else none
  | none => none

/-! ## Output parser: safeParsePythonJson (dataAnalystService.js, both revisions)

The source returns null on empty trimmed input, returns the parsed value,
or throws: either the JSON.parse SyntaxError from the fallback attempt
(its engine text is modelled by a fixed string) or the function's own
"Python output was not valid JSON" error when no brace pair exists. -/

inductive SafeParseOut where
  | nullOut : SafeParseOut
  | parsed : Json → SafeParseOut
  | thrown : String → SafeParseOut

/-- Model of the JSON.parse SyntaxError text (engine specific; opaque to the services). -/
def jsonSyntaxErrMsg : String := "Unexpected token in JSON"

/-- The brace-extraction substring the fallback parses (dataAnalystService.js
lines 25-28): text.indexOf of the opening brace, text.lastIndexOf of the
closing brace, and the slice from the former to the latter inclusive when
`first >= 0 && last > first`. -/
def braceSub (text : String) : Option String :=
  match firstIdxOf lbrace text.data, lastIdxOf rbrace text.data with
  | some first, some last =>
    if last > first then some (sliceStr text first (last + 1)) else none
  | _, _ => none

/-- Shallow embedding of safeParsePythonJson (dataAnalystService.js lines 16-32). -/
def safeParsePythonJson (stdout : String) : SafeParseOut :=
  let text := jsTrim stdout
  if text = "" then .nullOut
  else
    match jsonParse text with
    | some j => .parsed j
    | none =>
      match braceSub text with
      | some sub =>
        match jsonParse sub with
        | some j => .parsed j
        | none => .thrown jsonSyntaxErrMsg
      | none => .thrown "Python output was not valid JSON"

/-! ## Worker invocation via a shell command string (resumeScreenerService.js)

The legacy service builds a single shell command string and hands it to
child_process.exec, escaping only double quotes in the job description
(lines 22-26).  To settle what the worker receives, POSIX shell field
splitting is modelled for the fragment the command can use: plain words,
single quotes, double quotes, and backslash escapes.  A dollar sign or
backtick would trigger an expansion this model does not perform, and an
unterminated quote is a shell syntax error; both yield none. -/

inductive ShMode where
  | norm : ShMode
  | inDq : ShMode
  | inSq : ShMode
deriving DecidableEq

def isShSep (c : Char) : Bool := c = ' ' || c = '\t' || c = '\n'

/-- The backtick character. -/
def backtickChar : Char := Char.ofNat 96

/-- The single-quote character. -/
def squoteChar : Char := Char.ofNat 39

/-- One step of the shell field splitter; `cur` holds the current word
(reversed), `started` records whether a word is open, `acc` the fields so
far (reversed). -/
def shGo : List Char → ShMode → List Char → Bool → List String → Option (List String)
  | [], .norm, cur, started, acc =>
    some ((if started then String.mk cur.reverse :: acc else acc).reverse)
  | [], _, _, _, _ => none
  | c :: cs, .norm, cur, started, acc =>
    if isShSep c then
      if started then shGo cs .norm [] false (String.mk cur.reverse :: acc)
      else shGo cs .norm [] false acc
    else if c = '"' then shGo cs .inDq cur true acc
    else if c = squoteChar then shGo cs .inSq cur true acc
    else if c = '\\' then
      match cs with
      | [] => none
      | d :: cs2 => shGo cs2 .norm (d :: cur) true acc
    else if c = '$' ∨ c = backtickChar then none
    else shGo cs .norm (c :: cur) true acc
  | c :: cs, .inDq, cur, started, acc =>
    if c = '"' then shGo cs .norm cur started acc
    else if c = '\\' then
      match cs with
      | [] => none
      | d :: cs2 =>
        if d = '"' ∨ d = '\\' then shGo cs2 .inDq (d :: cur) started acc
        else if d = '$' ∨ d = backtickChar then shGo cs2 .inDq (d :: cur) started acc
        else
          shGo cs2 .inDq (d :: '\\' :: cur) started acc
    else if c = '$' ∨ c = backtickChar then none
    else shGo cs .inDq (c :: cur) started acc
  | c :: cs, .inSq, cur, started, acc =>
    if c = squoteChar then shGo cs .norm cur started acc
    else shGo cs .inSq (c :: cur) started acc

/-- POSIX shell field splitting of a command string (expansion-free fragment). -/
def shellFields (cmd : String) : Option (List String) :=
  shGo cmd.data .norm [] false []

/-- Escaping applied to the job description by resumeScreenerService.js line 23:
each double quote becomes backslash double-quote; nothing else is escaped. -/
def escapeJobDesc (jd : String) : String :=
  String.mk (jd.data.flatMap (fun c => if c = '"' then ['\\', '"'] else [c]))

/-- Wrap a string in double quotes, as the template literal does. -/
def dqWrap (s : String) : String := "\"" ++ s ++ "\""

/-- Shallow embedding of the command string built at
resumeScreenerService.js line 26. -/
def buildScreenCommand (pythonScript filesPath jd executionId : String) : String :=
  "python " ++ dqWrap pythonScript ++ " " ++ dqWrap filesPath ++ " " ++
    dqWrap (escapeJobDesc jd) ++ " " ++ dqWrap executionId

/-- The argument vector handed to execFile by the fixed revision
(src/unnamed/part_004 lines 39-44): discrete strings, no shell. -/
def screenPythonArgs (pythonScript filesPath jd executionId : String) : List String :=
  [pythonScript, filesPath, jd, executionId]

/-! ## Helpers over parsed documents

These model the few property accesses the services perform on the worker
document (`result.summary`, `result.success === false`, the
`!result || typeof result !== 'object'` guard). -/

/-- Property lookup on a parsed document; duplicate keys keep the last
occurrence, as JSON.parse does. -/
def jsLookup (j : Json) (k : String) : Option Json :=
  match j with
  | Json.jobj ps => (ps.reverse.find? (fun p => p.1 == k)).map (fun p => p.2)
  | _ => none

/-- A parsed value passing the `!result || typeof result !== 'object'` guard:
among JSON.parse results, exactly objects and arrays are truthy values of
typeof object. -/
def isObjLike (j : Json) : Bool :=
  match j with
  | Json.jobj _ => true
  | Json.jarr _ => true
  | _ => false

/-- Model of `result.summary || dflt`.  The workers always emit a string
summary; absent or falsy values fall to the default. -/
def summaryOr (j : Json) (dflt : String) : String :=
  match jsLookup j "summary" with
  | some (Json.jstr s) => if s = "" then dflt else s
  | _ => dflt

/-- Model of `result.success === false`. -/
def successIsFalse (j : Json) : Bool :=
  match jsLookup j "success" with
  | some (Json.jbool false) => true
  | _ => false

def truncate2000 (s : String) : String :=
  if s.length > 2000 then String.mk (s.data.take 2000) else s

/-! ## Data-analyst service, spawn revision (dataAnalystService.js lines 256-459)

The child process delivers exactly one of three events: the wall-clock
timeout fires (the service SIGKILLs the child), the `error` event (spawn
failure), or the `close` event with an exit code and the captured stdout
and stderr.  Each event is handled by a distinct code path; the embedding
records which path ran, whether the child was killed, the status and error
message written to bot_executions, the resolve value, and any results row. -/

inductive SpawnEvent where
  | timedOut : SpawnEvent
  | spawnFailed (msg : String) : SpawnEvent
  | closed (code : Int) (stdout stderr : String) : SpawnEvent

inductive AnalyzeBranch where
  | timeoutBranch : AnalyzeBranch
  | spawnErrorBranch : AnalyzeBranch
  | nonZeroBranch : AnalyzeBranch
  | emptyBranch : AnalyzeBranch
  | invalidBranch : AnalyzeBranch
  | thrownBranch (msg : String) : AnalyzeBranch
  | storeBranch (doc : Json) (status : String) : AnalyzeBranch

structure SvcResp where
  success : Bool
  error : Option String
  message : Option String

structure AnalyzeOut where
  branch : AnalyzeBranch
  killedChild : Bool
  dbStatus : Option String
  dbErrMsg : Option String
  resp : SvcResp
  stored : Option (Json × String)

/-- Default timeout budget of the spawn revision
(DATA_ANALYST_TIMEOUT_MS fallback, line 219). -/
def TIMEOUT_MS_SPAWN : Nat := 300000

/-- Shallow embedding of the spawn revision's event handling
(dataAnalystService.js lines 326-459). -/
def analyzeSpawnEvent : SpawnEvent → AnalyzeOut
  | .timedOut =>
    let m := "Timed out after " ++ toString TIMEOUT_MS_SPAWN ++ "ms"
    { branch := .timeoutBranch, killedChild := true,
      dbStatus := some "failed", dbErrMsg := some m,
      resp := { success := false, error := some "Analysis failed", message := some m },
      stored := none }
  | .spawnFailed msg =>
    let m := truncate2000 (jsOr msg "Python spawn error")
    { branch := .spawnErrorBranch, killedChild := false,
      dbStatus := some "failed", dbErrMsg := some m,
      resp := { success := false, error := some "Analysis failed", message := some m },
      stored := none }
  | .closed code stdout stderr =>
    if code ≠ 0 then
      let m := truncate2000 (jsOr stderr (jsOr stdout ("Python exited with code " ++ toString code)))
      { branch := .nonZeroBranch, killedChild := false,
        dbStatus := some "failed", dbErrMsg := some m,
        resp := { success := false, error := some "Analysis failed", message := some m },
        stored := none }
    else if stdout = "" then
      { branch := .emptyBranch, killedChild := false,
        dbStatus := some "failed", dbErrMsg := some "Python returned empty output",
        resp := { success := false, error := some "No output",
                  message := some "Python script returned empty output" },
        stored := none }
    else
      match safeParsePythonJson stdout with
      | .thrown m =>
        let t := truncate2000 (jsOr m "Failed to process results")
        { branch := .thrownBranch m, killedChild := false,
          dbStatus := some "failed", dbErrMsg := some t,
          resp := { success := false, error := some "Failed to process results", message := some t },
          stored := none }
      | .nullOut =>
        { branch := .invalidBranch, killedChild := false,
          dbStatus := some "failed", dbErrMsg := some "Python output parse failed",
          resp := { success := false, error := some "Invalid output",
                    message := some "Python output could not be parsed" },
          stored := none }
      | .parsed j =>
        if isObjLike j then
          let st := if successIsFalse j then "failed" else "completed"
          { branch := .storeBranch j st, killedChild := false,
            dbStatus := some st, dbErrMsg := none,
            resp := { success := st = "completed", error := none, message := none },
            stored := some (j, summaryOr j "Analysis complete") }
        else
          { branch := .invalidBranch, killedChild := false,
            dbStatus := some "failed", dbErrMsg := some "Python output parse failed",
            resp := { success := false, error := some "Invalid output",
                      message := some "Python output could not be parsed" },
            stored := none }

/-! ## Resume-screener service, execFile revision (src/unnamed/part_004 lines 189-335)

execFile reports timeout kills, spawn failures and non-zero exits through
one and the same callback error argument; the code handles all of them in a
single `if (error)` branch.  The status update stores no error message
(the UPDATE sets only the status column). -/

structure ExecFileErr where
  message : String
  code : Option Int
  signal : Option String
  killed : Bool

structure ScreenMeta where
  code : Option Int
  signal : Option String
  killed : Bool
  timeoutMs : Nat

structure ScreenResp2 where
  success : Bool
  error : Option String
  message : Option String
  meta : Option ScreenMeta
  executionId : Option String
  data : Option Json

structure ScreenCbOut where
  dbStatus : String
  dbErrMsg : Option String
  resp : ScreenResp2
  stored : Option (Json × String)

/-- Default timeout budget of the execFile revision
(RESUME_SCREENER_TIMEOUT_MS fallback of 15 minutes, part_004 line 213). -/
def RESUME_TIMEOUT_MS : Nat := 900000

/-- Shallow embedding of the execFile callback of part_004's later revision
(lines 223-322). -/
def screenExecFileCb (executionId : String) (err : Option ExecFileErr)
    (stdout stderr : String) : ScreenCbOut :=
  match err with
  | some e =>
    { dbStatus := "failed", dbErrMsg := none,
      resp := { success := false, error := some "Screening failed",
                message := some (jsOr stderr e.message),
                meta := some { code := e.code, signal := e.signal,
                               killed := e.killed, timeoutMs := RESUME_TIMEOUT_MS },
                executionId := none, data := none },
      stored := none }
  | none =>
    if stdout = "" then
      { dbStatus := "failed", dbErrMsg := none,
        resp := { success := false, error := some "No output",
                  message := some "Python script returned empty output",
                  meta := none, executionId := none, data := none },
        stored := none }
    else
      match jsonParse (jsTrim stdout) with
      | none =>
        { dbStatus := "failed", dbErrMsg := none,
          resp := { success := false, error := some "Invalid output format",
                    message := some "Python script returned invalid JSON",
                    meta := none, executionId := none, data := none },
          stored := none }
      | some j =>
        { dbStatus := "completed", dbErrMsg := none,
          resp := { success := true, error := none, message := none,
                    meta := none, executionId := some executionId, data := some j },
          stored := some (j, summaryOr j "Screening complete") }

/-! ## Legacy resume-screener service (resumeScreenerService.js lines 13-72)

This revision generates its own execution id (uuidv4 at line 17), builds a
shell command string, and inserts the results row keyed by that own id.
uuidv4 is modelled as a counter-indexed supply of distinct opaque strings. -/

def uuidStr (n : Nat) : String := "uuid-" ++ toString n

def resumeScriptPath : String := "ai_workers/resume_screener_bot.py"

/-- The exec callback outcome delivered by the worker run: a non-null error
(crash, timeout kill, spawn failure) with captured stderr, or stdout. -/
inductive WorkerRun where
  | errRun (stderr msg : String) : WorkerRun
  | outRun (stdout : String) : WorkerRun

structure ScreenResp1 where
  success : Bool
  executionId : Option String
  data : Option Json
  error : Option String
  message : Option String

structure ScreenLegacySvc where
  svcExecutionId : String
  cmd : String
  results : List (String × Json × String)
  resp : ScreenResp1

/-- Shallow embedding of the legacy screenResumes.  `fresh` indexes the next
uuid the service draws; the results rows are (execution_id, result_data,
summary_text).  JSON.parse(stdout) is the strict parse with no fallback. -/
def screenResumesLegacyRun (fresh : Nat) (filesPath jd : String) (run : WorkerRun) :
    ScreenLegacySvc :=
  let svcEid := uuidStr fresh
  let cmd := buildScreenCommand resumeScriptPath filesPath jd svcEid
  match run with
  | .errRun stderr msg =>
    { svcExecutionId := svcEid, cmd := cmd, results := [],
      resp := { success := false, executionId := none, data := none,
                error := some "Screening failed", message := some (jsOr stderr msg) } }
  | .outRun stdout =>
    match jsonParse stdout with
    | some doc =>
      { svcExecutionId := svcEid, cmd := cmd,
        results := [(svcEid, doc, summaryOr doc "Screening complete")],
        resp := { success := true, executionId := some svcEid, data := some doc,
                  error := none, message := none } }
    | none =>
      { svcExecutionId := svcEid, cmd := cmd, results := [],
        resp := { success := false, executionId := none, data := none,
                  error := some "Failed to process results", message := some jsonSyntaxErrMsg } }

/-! ## Route handlers (bots.js, legacy and v2 revisions)

A route run records the HTTP response, the bot_executions rows inserted, the
ordered status updates, the results rows inserted, and the upload paths that
remain on disk once the handler (plus any scheduled grace-period cleanup)
is done. -/

structure ExecutionRow where
  id : String
  userId : Nat
  botType : String
  fileName : String
  status : String

structure RouteResp where
  httpStatus : Nat
  success : Bool
  error : Option String
  message : Option String
  executionId : Option String
  data : Option Json

structure RouteRun where
  resp : RouteResp
  executions : List ExecutionRow
  statusWrites : List (String × String)
  results : List (String × Json × String)
  leftover : List String

/-- The JavaScript object the legacy route serialises at line 172
(`data: result` passes the whole service envelope). -/
def screenEnvelopeJson (svcEid : String) (doc : Json) : Json :=
  Json.jobj [("success", Json.jbool true), ("executionId", Json.jstr svcEid), ("data", doc)]

/-- Presence test of the job description field: `!req.body.jobDescription`
treats a missing field and an empty string as absent. -/
def jdPresent (jd : Option String) : Bool :=
  match jd with
  | none => false
  | some s => s != ""

/-- Shallow embedding of the legacy POST /resume-screener handler
(bots.js lines 101-187) composed with the legacy service.  `files` carries
the original filenames of the uploaded temp files; the per-execution upload
directory is named by the route's execution id.  Neither exit path removes
the directory (the fs.rmSync calls at lines 156 and 166 are commented out). -/
def resumeRouteLegacy (fresh : Nat) (userId : Nat) (files : List String)
    (jd : Option String) (run : WorkerRun) : RouteRun :=
  if files.isEmpty then
    { resp := { httpStatus := 400, success := false, error := some "No files uploaded",
                message := some "Please upload at least one resume",
                executionId := none, data := none },
      executions := [], statusWrites := [], results := [], leftover := [] }
  else if ¬ jdPresent jd then
    { resp := { httpStatus := 400, success := false, error := some "Missing job description",
                message := some "Please provide a job description",
                executionId := none, data := none },
      executions := [], statusWrites := [], results := [], leftover := [] }
  else
    let eid := uuidStr fresh
    let uploadDir := "uploads/" ++ eid
    let row : ExecutionRow :=
      { id := eid, userId := userId, botType := "resume_screener",
        fileName := toString files.length ++ " resumes", status := "processing" }
    let svc := screenResumesLegacyRun (fresh + 1) uploadDir (jd.getD "") run
    if svc.resp.success then
      { resp := { httpStatus := 200, success := true, error := none,
                  message := some "Screening complete", executionId := some eid,
                  data := match svc.resp.executionId, svc.resp.data with
                          | some seid, some doc => some (screenEnvelopeJson seid doc)
                          | _, _ => none },
        executions := [row], statusWrites := [(eid, "completed")],
        results := svc.results, leftover := [uploadDir] }
    else
      { resp := { httpStatus := 500, success := false, error := svc.resp.error,
                  message := svc.resp.message, executionId := none, data := none },
        executions := [row], statusWrites := [(eid, "failed")],
        results := svc.results, leftover := [uploadDir] }

/-- Abstract service outcome as seen from a route: resolve with success and a
document, resolve with failure, or an exception escaping to the catch. -/
inductive SvcOutcome where
  | svcOk (doc : Json) : SvcOutcome
  | svcFail (msg : String) : SvcOutcome
  | svcThrew (msg : String) : SvcOutcome

/-- Validity of the v2 job-description field
(bots.js line 422: `!req.body.jobDescription || req.body.jobDescription.trim().length < 10`). -/
def jdValidV2 (jd : Option String) : Bool :=
  match jd with
  | none => false
  | some s => (s != "") && decide (10 ≤ (jsTrim s).length)

def isSafeNameChar (c : Char) : Bool :=
  ('a' ≤ c && c ≤ 'z') || ('A' ≤ c && c ≤ 'Z') || ('0' ≤ c && c ≤ '9') ||
    c = '.' || c = '-' || c = '_'

/-- Filename sanitisation of the v2 route (bots.js line 449). -/
def safeName (s : String) : String :=
  String.mk (s.data.map (fun c => if isSafeNameChar c then c else '_'))

/-- Shallow embedding of the v2 POST /resume-screener handler
(bots.js lines 400-529).  On success the per-execution directory is removed
by the scheduled one-hour cleanup, so it is absent from `leftover`; on
service failure no cleanup runs; on an exception the catch unlinks the
multer temp paths, which no longer exist after the move, so the directory
also survives. -/
def resumeRouteV2 (fresh : Nat) (userId : Nat) (files : List String)
    (jd : Option String) (svc : SvcOutcome) : RouteRun :=
  if files.isEmpty then
    { resp := { httpStatus := 400, success := false, error := some "No files uploaded",
                message := some "Please upload at least one resume (PDF/TXT/DOCX)",
                executionId := none, data := none },
      executions := [], statusWrites := [], results := [], leftover := [] }
  else if ¬ jdValidV2 jd then
    { resp := { httpStatus := 400, success := false, error := some "Missing job description",
                message := some "Please provide a job description (min 10 characters)",
                executionId := none, data := none },
      executions := [], statusWrites := [], results := [], leftover := [] }
  else
    let eid := uuidStr fresh
    let uploadDir := "uploads/" ++ eid
    let row : ExecutionRow :=
      { id := eid, userId := userId, botType := "resume_screener",
        fileName := toString (files.map safeName).length ++ " resumes", status := "processing" }
    match svc with
    | .svcFail m =>
      { resp := { httpStatus := 500, success := false, error := none,
                  message := some m, executionId := none, data := none },
        executions := [row], statusWrites := [(eid, "failed")],
        results := [], leftover := [uploadDir] }
    | .svcOk doc =>
      { resp := { httpStatus := 200, success := true, error := none,
                  message := some "Screening complete", executionId := some eid,
                  data := some doc },
        executions := [row], statusWrites := [(eid, "completed")],
        results := [], leftover := [] }
    | .svcThrew m =>
      { resp := { httpStatus := 500, success := false, error := some "Internal server error",
                  message := some m, executionId := none, data := none },
        executions := [row], statusWrites := [],
        results := [], leftover := [uploadDir] }

/-- Case-insensitive csv extension check of the v2 data-analyst route
(bots.js line 342: originalname.toLowerCase().endsWith of .csv). -/
def csvNameOk (orig : String) : Bool :=
  ".csv".data.isSuffixOf (orig.data.map Char.toLower)

/-- Shallow embedding of the POST /data-analyst handler (bots.js lines 32-94).
The uploaded temp file is unlinked on the invalid-extension path, the service
failure path, the success path, and the catch; `file` carries (temp path,
original name). -/
def dataAnalystRoute (eid : String) (userId : Nat) (file : Option (String × String))
    (svc : SvcOutcome) : RouteRun :=
  match file with
  | none =>
    { resp := { httpStatus := 400, success := false, error := some "No file uploaded",
                message := some "Please upload a CSV file", executionId := none, data := none },
      executions := [], statusWrites := [], results := [], leftover := [] }
  | some (_, orig) =>
    if ¬ csvNameOk orig then
      { resp := { httpStatus := 400, success := false, error := some "Invalid file type",
                  message := some "Please upload a CSV file", executionId := none, data := none },
        executions := [], statusWrites := [], results := [], leftover := [] }
    else
      let row : ExecutionRow :=
        { id := eid, userId := userId, botType := "data_analyst",
          fileName := orig, status := "processing" }
      match svc with
      | .svcFail m =>
        { resp := { httpStatus := 500, success := false, error := none,
                    message := some m, executionId := none, data := none },
          executions := [row], statusWrites := [(eid, "failed")],
          results := [], leftover := [] }
      | .svcOk doc =>
        { resp := { httpStatus := 200, success := true, error := none,
                    message := some "Analysis complete", executionId := some eid,
                    data := some doc },
          executions := [row], statusWrites := [(eid, "completed")],
          results := [], leftover := [] }
      | .svcThrew m =>
        { resp := { httpStatus := 500, success := false, error := some "Internal server error",
                    message := some m, executionId := none, data := none },
          executions := [row], statusWrites := [], results := [], leftover := [] }

/-! ## Retrieval endpoint (bots.js lines 220-270, identical in both revisions) -/

structure ExecLookup where
  id : String
  userId : Nat
  status : String

inductive GetResultResp where
  | execNotFound : GetResultResp
  | forbidden : GetResultResp
  | resultsNotFound : GetResultResp
  | okRes (status : String) (data : Option Json) (summary : Option String) : GetResultResp

/-- Shallow embedding of GET /result/:executionId.  `execution` is the
bot_executions row found by id, `result` the results row found by
execution_id (result_data, summary_text). -/
def getResultHandler (requester : Nat) (execution : Option ExecLookup)
    (result : Option (Json × String)) : GetResultResp :=
  match execution with
  | none => .execNotFound
  | some e =>
    if e.userId ≠ requester then .forbidden
    else
      match result with
      | none =>
        if e.status ≠ "processing" then .resultsNotFound
        else .okRes e.status none none
      | some (d, s) => .okRes e.status (some d) (some s)

/-! ## Status vocabulary and monotonicity -/

/-- The four status values the source actually writes. -/
def statusAllowed (s : String) : Bool :=
  s = "processing" || s = "running" || s = "completed" || s = "failed"

/-- The four status values the specification names. -/
def specStatuses : List String := ["pending", "running", "completed", "failed"]

def statusRank (s : String) : Nat :=
  if s = "processing" then 0 else if s = "running" then 1 else 2

/-- A write sequence is monotone when each step strictly increases the rank
or repeats the same value; terminal values (rank 2) can then never be left. -/
def monoTrace : List String → Bool
  | a :: b :: t => ((statusRank a < statusRank b) || (a = b)) && monoTrace (b :: t)
  | _ => true

/-- Status writes applied to the bot_executions row a service of the part_004
family owns: inserted as running (part_004 lines 29-34), then the callback's
terminal update. -/
def screenP4RowWrites (eid : String) (err : Option ExecFileErr)
    (stdout stderr : String) : List String :=
  ["running", (screenExecFileCb eid err stdout stderr).dbStatus]

/-- Status writes of the spawn-revision analyzeData to the row whose id its
caller supplies (dataAnalystService.js lines 256-459): early failures before
the mark-running update, else running followed by the event's update. -/
def analyzeSvcWrites (fileMissing tooLarge : Bool) (ev : SpawnEvent) : List String :=
  if fileMissing then ["failed"]
  else if tooLarge then ["failed"]
  else
    "running" :: (match (analyzeSpawnEvent ev).dbStatus with
                  | some s => [s]
                  | none => [])

/-- The full write sequence seen by a route-owned execution row: the insert
status followed by the route's updates. -/
def routeRowTrace (r : RouteRun) : List String :=
  r.executions.map (fun e => e.status) ++ r.statusWrites.map (fun w => w.2)

/-- A status-write sequence is well formed when every value written is one of
the four actual statuses and the sequence is monotone. -/
def goodTrace (t : List String) : Prop := (t.all statusAllowed && monoTrace t) = true

/-! ## Helper lemmas -/

lemma screenCb_dbStatus (eid : String) (err : Option ExecFileErr) (stdout stderr : String) :
    (screenExecFileCb eid err stdout stderr).dbStatus = "failed" ∨
    (screenExecFileCb eid err stdout stderr).dbStatus = "completed" := by
  cases err with
  | some e => left; rfl
  | none =>
    by_cases h : stdout = ""
    · left; simp [screenExecFileCb, h]
    · cases hj : jsonParse (jsTrim stdout) with
      | none => left; simp [screenExecFileCb, h, hj]
      | some j => right; simp [screenExecFileCb, h, hj]

lemma analyze_dbStatus (ev : SpawnEvent) :
    (analyzeSpawnEvent ev).dbStatus = some "failed" ∨
    (analyzeSpawnEvent ev).dbStatus = some "completed" := by
  cases ev with
  | timedOut => left; rfl
  | spawnFailed m => left; rfl
  | closed code stdout stderr =>
    by_cases hc : code ≠ 0
    · left; simp [analyzeSpawnEvent, hc]
    · by_cases hs : stdout = ""
      · left; simp [analyzeSpawnEvent, hc, hs]
      · cases hp : safeParsePythonJson stdout with
        | thrown m => left; simp [analyzeSpawnEvent, hc, hs, hp]
        | nullOut => left; simp [analyzeSpawnEvent, hc, hs, hp]
        | parsed j =>
          by_cases ho : isObjLike j
          · by_cases hf : successIsFalse j
            · left; simp [analyzeSpawnEvent, hc, hs, hp, ho, hf]
            · right; simp [analyzeSpawnEvent, hc, hs, hp, ho, hf]
          · left; simp [analyzeSpawnEvent, hc, hs, hp, ho]

/-! ## Claims -/

/-- C1: the claim requires every argument, in particular a free-text job
description with shell metacharacters, to reach the worker byte-for-byte via
a discrete argument vector.  The legacy resumeScreenerService.js instead
interpolates the description into a shell command string escaping only
double quotes: a job description consisting of one backslash makes the
escaped quoting swallow the closing quote and the command line no longer
splits into the intended five fields (the shell rejects it), while a benign
description still splits correctly and the fixed execFile revision forwards
the description verbatim as argv entry 2. -/
theorem c1_shell_string_corrupts_job_description :
    shellFields (buildScreenCommand resumeScriptPath "uploads/uuid-0" "\\" (uuidStr 1)) = none ∧
    shellFields (buildScreenCommand resumeScriptPath "uploads/uuid-0" "word processing" (uuidStr 1)) =
      some ["python", resumeScriptPath, "uploads/uuid-0", "word processing", uuidStr 1] ∧
    (screenPythonArgs resumeScriptPath "uploads/uuid-0" "\\" (uuidStr 1)).get? 2 = some "\\" := by
  exact ⟨by decide, by decide, rfl⟩

/-- C2: the claim says one execution id correlates the bot_executions row,
the results row and the response envelope.  Running the legacy
POST /resume-screener handler on an accepted submission whose worker prints
a parseable document shows the route inserts the execution row under its own
fresh uuid and returns it in the envelope, while the service keys the
results row by a different uuid it generates itself, so the stored result
references no execution row of this submission. -/
theorem c2_result_row_not_correlated_with_execution :
    ((resumeRouteLegacy 0 7 ["a.pdf"] (some "desc") (.outRun "\x7b\"summary\":\"ok\"\x7d")).executions.map
        (fun e => e.id) = [uuidStr 0]) ∧
    (resumeRouteLegacy 0 7 ["a.pdf"] (some "desc") (.outRun "\x7b\"summary\":\"ok\"\x7d")).resp.executionId
      = some (uuidStr 0) ∧
    ((resumeRouteLegacy 0 7 ["a.pdf"] (some "desc") (.outRun "\x7b\"summary\":\"ok\"\x7d")).results.map
        (fun r => r.1) = [uuidStr 1]) ∧
    uuidStr 1 ≠ uuidStr 0 := by
  exact ⟨by decide, by decide, by decide, by decide⟩

/-- C3 counterexample: the claim names the status enum as pending, running,
completed, failed, but the very first status the data-analyst route writes
when inserting the execution row (bots.js line 56) is processing, which is
not among the four claimed values. -/
theorem c3_counterexample_processing_status :
    "processing" ∈ routeRowTrace
      (dataAnalystRoute (uuidStr 0) 7 (some ("tmp/x", "data.csv")) (.svcOk (Json.jobj []))) ∧
    "processing" ∉ specStatuses := by
  exact ⟨by decide, by decide⟩

/-- C3 amended: every status the source writes is one of processing, running,
completed, failed, and for every execution row the write sequence produced by
any modelled handler or service is monotone in the order
processing, running, terminal, never leaving a terminal state: this holds for
the data-analyst route, both resume-screener routes, the part_004 service's
own row (inserted running, then one terminal update), and the spawn-revision
analyzeData writes for a caller-supplied row. -/
theorem c3_status_writes_monotone :
    (∀ eid uid file svc, goodTrace (routeRowTrace (dataAnalystRoute eid uid file svc))) ∧
    (∀ fresh uid files jd run, goodTrace (routeRowTrace (resumeRouteLegacy fresh uid files jd run))) ∧
    (∀ fresh uid files jd svc, goodTrace (routeRowTrace (resumeRouteV2 fresh uid files jd svc))) ∧
    (∀ eid err stdout stderr, goodTrace (screenP4RowWrites eid err stdout stderr)) ∧
    (∀ fm tl ev, goodTrace (analyzeSvcWrites fm tl ev)) := by
  refine ⟨?_, ?_, ?_, ?_, ?_⟩
  · intro eid uid file svc
    cases file with
    | none =>
      have h : routeRowTrace (dataAnalystRoute eid uid none svc) = [] := rfl
      rw [h]; rfl
    | some f =>
      by_cases h : csvNameOk f.2
      · cases svc with
        | svcOk doc =>
          have h2 : routeRowTrace (dataAnalystRoute eid uid (some f) (.svcOk doc)) =
              ["processing", "completed"] := by
            simp [dataAnalystRoute, h, routeRowTrace]
          rw [h2]; rfl
        | svcFail m =>
          have h2 : routeRowTrace (dataAnalystRoute eid uid (some f) (.svcFail m)) =
              ["processing", "failed"] := by
            simp [dataAnalystRoute, h, routeRowTrace]
          rw [h2]; rfl
        | svcThrew m =>
          have h2 : routeRowTrace (dataAnalystRoute eid uid (some f) (.svcThrew m)) =
              ["processing"] := by
            simp [dataAnalystRoute, h, routeRowTrace]
          rw [h2]; rfl
      · have h2 : routeRowTrace (dataAnalystRoute eid uid (some f) svc) = [] := by
          simp [dataAnalystRoute, h, routeRowTrace]
        rw [h2]; rfl
  · intro fresh uid files jd run
    by_cases h1 : files.isEmpty
    · have h : routeRowTrace (resumeRouteLegacy fresh uid files jd run) = [] := by
        simp [resumeRouteLegacy, h1, routeRowTrace]
      rw [h]; rfl
    · by_cases h2 : jdPresent jd
      · by_cases h3 : (screenResumesLegacyRun (fresh + 1) ("uploads/" ++ uuidStr fresh)
            (jd.getD "") run).resp.success
        · have h : routeRowTrace (resumeRouteLegacy fresh uid files jd run) =
              ["processing", "completed"] := by
            simp [resumeRouteLegacy, h1, h2, h3, routeRowTrace]
          rw [h]; rfl
        · have h : routeRowTrace (resumeRouteLegacy fresh uid files jd run) =
              ["processing", "failed"] := by
            simp [resumeRouteLegacy, h1, h2, h3, routeRowTrace]
          rw [h]; rfl
      · have h : routeRowTrace (resumeRouteLegacy fresh uid files jd run) = [] := by
          simp [resumeRouteLegacy, h1, h2, routeRowTrace]
        rw [h]; rfl
  · intro fresh uid files jd svc
    by_cases h1 : files.isEmpty
    · have h : routeRowTrace (resumeRouteV2 fresh uid files jd svc) = [] := by
        simp [resumeRouteV2, h1, routeRowTrace]
      rw [h]; rfl
    · by_cases h2 : jdValidV2 jd
      · cases svc with
        | svcOk doc =>
          have h : routeRowTrace (resumeRouteV2 fresh uid files jd (.svcOk doc)) =
              ["processing", "completed"] := by
            simp [resumeRouteV2, h1, h2, routeRowTrace]
          rw [h]; rfl
        | svcFail m =>
          have h : routeRowTrace (resumeRouteV2 fresh uid files jd (.svcFail m)) =
              ["processing", "failed"] := by
            simp [resumeRouteV2, h1, h2, routeRowTrace]
          rw [h]; rfl
        | svcThrew m =>
          have h : routeRowTrace (resumeRouteV2 fresh uid files jd (.svcThrew m)) =
              ["processing"] := by
            simp [resumeRouteV2, h1, h2, routeRowTrace]
          rw [h]; rfl
      · have h : routeRowTrace (resumeRouteV2 fresh uid files jd svc) = [] := by
          simp [resumeRouteV2, h1, h2, routeRowTrace]
        rw [h]; rfl
  · intro eid err stdout stderr
    rcases screenCb_dbStatus eid err stdout stderr with h | h <;>
      simp [screenP4RowWrites, h, goodTrace, statusAllowed, monoTrace, statusRank]
  · intro fm tl ev
    cases fm with
    | true => rfl
    | false =>
      cases tl with
      | true => rfl
      | false =>
        rcases analyze_dbStatus ev with h | h <;>
          simp [analyzeSvcWrites, h, goodTrace, statusAllowed, monoTrace, statusRank]

/-- C4: safeParsePythonJson first attempts a strict parse of the trimmed
stdout and returns its document when it succeeds; when the strict parse
fails and the first opening brace precedes the last closing brace, it parses
exactly the inclusive substring between them, so a document surrounded by
log lines still parses; and an error is thrown only when the strict attempt
failed and the brace-extraction attempt was unavailable or also failed. -/
theorem c4_parser_strict_then_brace_fallback :
    (∀ s j, jsonParse (jsTrim s) = some j → safeParsePythonJson s = .parsed j) ∧
    (∀ s sub j, jsonParse (jsTrim s) = none → braceSub (jsTrim s) = some sub →
      jsonParse sub = some j → safeParsePythonJson s = .parsed j) ∧
    (safeParsePythonJson "INFO: starting\n\x7b\"success\":true\x7d\nINFO: done" =
      .parsed (Json.jobj [("success", Json.jbool true)])) ∧
    (∀ s m, safeParsePythonJson s = .thrown m →
      jsonParse (jsTrim s) = none ∧ ∀ sub, braceSub (jsTrim s) = some sub → jsonParse sub = none) := by
  refine ⟨?_, ?_, rfl, ?_⟩
  · intro s j h
    by_cases h0 : jsTrim s = ""
    · rw [h0] at h
      simp [show jsonParse "" = (none : Option Json) from rfl] at h
    · simp [safeParsePythonJson, h0, h]
  · intro s sub j h1 h2 h3
    by_cases h0 : jsTrim s = ""
    · rw [h0] at h2
      simp [show braceSub "" = (none : Option String) from rfl] at h2
    · simp [safeParsePythonJson, h0, h1, h2, h3]
  · intro s m h
    by_cases h0 : jsTrim s = ""
    · simp [safeParsePythonJson, h0] at h
    · cases h1 : jsonParse (jsTrim s) with
      | some j => simp [safeParsePythonJson, h0, h1] at h
      | none =>
        refine ⟨rfl, ?_⟩
        intro sub h2
        cases h3 : jsonParse sub with
        | none => rfl
        | some j => simp [safeParsePythonJson, h0, h1, h2, h3] at h

/-- C4 witness: the strict branch of the parser theorem applied to a clean
one-field document. -/
theorem c4_witness :
    safeParsePythonJson "\x7b\"a\":1\x7d" = .parsed (Json.jobj [("a", Json.jnum "1")]) :=
  c4_parser_strict_then_brace_fallback.1 "\x7b\"a\":1\x7d" (Json.jobj [("a", Json.jnum "1")]) rfl

/-- C5: the claim says the envelope's data field is exactly the parsed worker
document.  On a successful legacy-route submission the handler instead sets
data to the whole service envelope (bots.js line 172), wrapping the document
under a nested data key beside added success and executionId fields, which
differs from the document; the v2 handler (line 510) returns the document
itself, as the repository's own API notes and frontend expect. -/
theorem c5_legacy_route_wraps_result_document :
    ((resumeRouteLegacy 0 7 ["a.pdf"] (some "desc") (.outRun "\x7b\"summary\":\"ok\"\x7d")).resp.data
      = some (screenEnvelopeJson (uuidStr 1) (Json.jobj [("summary", Json.jstr "ok")]))) ∧
    screenEnvelopeJson (uuidStr 1) (Json.jobj [("summary", Json.jstr "ok")])
      ≠ Json.jobj [("summary", Json.jstr "ok")] ∧
    (resumeRouteV2 0 7 ["a.pdf"] (some "0123456789")
        (.svcOk (Json.jobj [("summary", Json.jstr "ok")]))).resp.data
      = some (Json.jobj [("summary", Json.jstr "ok")]) := by
  refine ⟨rfl, ?_, rfl⟩
  simp [screenEnvelopeJson]

/-- C6 counterexample: in the execFile revision of screenResumes a timed-out
invocation (killed child, SIGTERM) and a plain non-zero exit are handled by
the same error branch: both store status failed with no error message at
all, and both respond with the same error tag and the same stderr-derived
message, which does not contain the configured budget. -/
theorem c6_counterexample_timeout_not_distinct :
    (screenExecFileCb (uuidStr 0)
        (some { message := "Command failed: python resume_screener_bot.py",
                code := none, signal := some "SIGTERM", killed := true }) "" "").dbStatus
      = "failed" ∧
    (screenExecFileCb (uuidStr 0)
        (some { message := "Command failed: python resume_screener_bot.py",
                code := none, signal := some "SIGTERM", killed := true }) "" "").dbErrMsg
      = none ∧
    (screenExecFileCb (uuidStr 0)
        (some { message := "Command failed: python resume_screener_bot.py",
                code := none, signal := some "SIGTERM", killed := true }) "" "").resp.error
      = (screenExecFileCb (uuidStr 0)
        (some { message := "Command failed: python resume_screener_bot.py",
                code := some 1, signal := none, killed := false }) "" "").resp.error ∧
    (screenExecFileCb (uuidStr 0)
        (some { message := "Command failed: python resume_screener_bot.py",
                code := none, signal := some "SIGTERM", killed := true }) "" "").resp.message
      = (screenExecFileCb (uuidStr 0)
        (some { message := "Command failed: python resume_screener_bot.py",
                code := some 1, signal := none, killed := false }) "" "").resp.message ∧
    ¬ ((toString RESUME_TIMEOUT_MS).data <:+:
        "Command failed: python resume_screener_bot.py".data) := by
  exact ⟨rfl, rfl, rfl, rfl, by decide⟩

/-- C6 amended: in the spawn revision of the data-analyst service the timeout
path kills the child, marks the execution failed, and stores and reports the
message naming the configured budget, on a branch distinct from the non-zero
exit branch and from the spawn-error branch; the resume-screener execFile
revision instead folds the timeout kill into its generic error branch. -/
theorem c6_spawn_timeout_distinct_with_budget :
    (analyzeSpawnEvent .timedOut).branch = .timeoutBranch ∧
    (analyzeSpawnEvent .timedOut).killedChild = true ∧
    (analyzeSpawnEvent .timedOut).dbStatus = some "failed" ∧
    (analyzeSpawnEvent .timedOut).dbErrMsg =
      some ("Timed out after " ++ toString TIMEOUT_MS_SPAWN ++ "ms") ∧
    ((toString TIMEOUT_MS_SPAWN).data <:+:
      (((analyzeSpawnEvent .timedOut).resp.message).getD "").data) ∧
    (∀ code stdout stderr, code ≠ 0 →
      (analyzeSpawnEvent (.closed code stdout stderr)).branch = .nonZeroBranch) ∧
    (∀ m, (analyzeSpawnEvent (.spawnFailed m)).branch = .spawnErrorBranch) ∧
    AnalyzeBranch.nonZeroBranch ≠ AnalyzeBranch.timeoutBranch ∧
    AnalyzeBranch.spawnErrorBranch ≠ AnalyzeBranch.timeoutBranch := by
  refine ⟨rfl, rfl, rfl, rfl, by decide, ?_, fun m => rfl, ?_, ?_⟩
  · intro code stdout stderr h
    simp [analyzeSpawnEvent, h]
  · intro h; exact AnalyzeBranch.noConfusion h
  · intro h; exact AnalyzeBranch.noConfusion h

/-- C6 witness: the non-zero-exit clause of the amended theorem at exit
code 1. -/
theorem c6_witness :
    (analyzeSpawnEvent (.closed 1 "" "boom")).branch = .nonZeroBranch :=
  c6_spawn_timeout_distinct_with_budget.2.2.2.2.2.1 1 "" "boom" (by decide)

/-- C7 counterexample: a stdout consisting of one space is not classified as
the empty-output error: it lands in the very same invalid-output branch,
with the same stored message, as the non-empty garbage stdout 5, while only
the exactly-empty stdout receives the distinct empty-output classification. -/
theorem c7_counterexample_whitespace_merged :
    analyzeSpawnEvent (.closed 0 " " "") = analyzeSpawnEvent (.closed 0 "5" "") ∧
    (analyzeSpawnEvent (.closed 0 " " "")).branch ≠ .emptyBranch ∧
    (analyzeSpawnEvent (.closed 0 " " "")).dbErrMsg = some "Python output parse failed" ∧
    (analyzeSpawnEvent (.closed 0 "" "")).branch = .emptyBranch := by
  refine ⟨rfl, ?_, rfl, rfl⟩
  intro h; exact AnalyzeBranch.noConfusion h

/-- C7 amended: only an exactly empty stdout is classified as the distinct
empty-output error (Python returned empty output); a non-empty stdout that
trims to nothing falls through the empty check, safeParsePythonJson returns
its null result, and the outcome is the same invalid-output classification
used for parsed non-document output. -/
theorem c7_empty_vs_whitespace_classification :
    (∀ stderr, (analyzeSpawnEvent (.closed 0 "" stderr)).branch = .emptyBranch) ∧
    (∀ s stderr, s ≠ "" → jsTrim s = "" →
      (analyzeSpawnEvent (.closed 0 s stderr)).branch = .invalidBranch ∧
      (analyzeSpawnEvent (.closed 0 s stderr)).dbErrMsg = some "Python output parse failed") := by
  refine ⟨fun stderr => rfl, ?_⟩
  intro s stderr hs h2
  have hp : safeParsePythonJson s = .nullOut := by simp [safeParsePythonJson, h2]
  constructor <;> simp [analyzeSpawnEvent, hs, hp]

/-- C7 witness: the whitespace clause of the amended theorem at a one-space
stdout. -/
theorem c7_witness :
    (analyzeSpawnEvent (.closed 0 " " "")).branch = .invalidBranch ∧
    (analyzeSpawnEvent (.closed 0 " " "")).dbErrMsg = some "Python output parse failed" :=
  c7_empty_vs_whitespace_classification.2 " " "" (by decide) (by decide)

/-- C8 counterexample: a v2 resume-screener submission that passes validation
and then fails in the service returns 500 with the per-execution upload
directory still on disk (no cleanup is scheduled on that path), and the
legacy route retains the directory even on success. -/
theorem c8_counterexample_failure_path_leaks :
    (resumeRouteV2 0 7 ["r1.pdf"] (some "need ten chars") (.svcFail "boom")).resp.httpStatus = 500 ∧
    (resumeRouteV2 0 7 ["r1.pdf"] (some "need ten chars") (.svcFail "boom")).leftover ≠ [] ∧
    (resumeRouteLegacy 0 7 ["r1.pdf"] (some "desc") (.outRun "\x7b\"summary\":\"ok\"\x7d")).leftover
      ≠ [] := by
  exact ⟨by decide, by decide, by decide⟩

/-- C8 amended: the data-analyst route unlinks its upload on every exit path;
the v2 resume-screener route removes the per-execution directory only on the
success path (via the one-hour grace cleanup), while its service-failure and
internal-error paths, and every post-move path of the legacy route, retain
the directory. -/
theorem c8_cleanup_by_route_and_path :
    (∀ eid uid file svc, (dataAnalystRoute eid uid file svc).leftover = []) ∧
    (∀ fresh uid files jd doc, (resumeRouteV2 fresh uid files jd (.svcOk doc)).leftover = []) ∧
    (∀ fresh uid files jd m, files ≠ [] → jdValidV2 jd = true →
      (resumeRouteV2 fresh uid files jd (.svcFail m)).leftover = ["uploads/" ++ uuidStr fresh] ∧
      (resumeRouteV2 fresh uid files jd (.svcThrew m)).leftover = ["uploads/" ++ uuidStr fresh]) ∧
    (∀ fresh uid files jd run, files ≠ [] → jdPresent jd = true →
      (resumeRouteLegacy fresh uid files jd run).leftover = ["uploads/" ++ uuidStr fresh]) := by
  refine ⟨?_, ?_, ?_, ?_⟩
  · intro eid uid file svc
    cases file with
    | none => rfl
    | some f =>
      by_cases h : csvNameOk f.2
      · cases svc <;> simp [dataAnalystRoute, h]
      · simp [dataAnalystRoute, h]
  · intro fresh uid files jd doc
    by_cases h1 : files.isEmpty
    · simp [resumeRouteV2, h1]
    · by_cases h2 : jdValidV2 jd
      · simp [resumeRouteV2, h1, h2]
      · simp [resumeRouteV2, h1, h2]
  · intro fresh uid files jd m hf hj
    have h1 : files.isEmpty = false := by
      cases files with
      | nil => exact absurd rfl hf
      | cons a t => rfl
    constructor <;> simp [resumeRouteV2, h1, hj]
  · intro fresh uid files jd run hf hj
    have h1 : files.isEmpty = false := by
      cases files with
      | nil => exact absurd rfl hf
      | cons a t => rfl
    by_cases h3 : (screenResumesLegacyRun (fresh + 1) ("uploads/" ++ uuidStr fresh)
        (jd.getD "") run).resp.success
    · simp [resumeRouteLegacy, h1, hj, h3]
    · simp [resumeRouteLegacy, h1, hj, h3]

/-- C8 witness: the failure-path clause of the amended theorem at a concrete
one-file submission. -/
theorem c8_witness :
    (resumeRouteV2 0 7 ["r1.pdf"] (some "0123456789") (.svcFail "boom")).leftover
      = ["uploads/" ++ uuidStr 0] ∧
    (resumeRouteV2 0 7 ["r1.pdf"] (some "0123456789") (.svcThrew "boom")).leftover
      = ["uploads/" ++ uuidStr 0] :=
  c8_cleanup_by_route_and_path.2.2.1 0 7 ["r1.pdf"] (some "0123456789") "boom"
    (by decide) (by decide)

/-- C9: a v2 resume-screener submission failing structural validation (no
files, or a job description that is absent, empty, or under ten characters
after trimming) yields an HTTP 400 response and inserts no execution row,
writes no status, and stores no result. -/
theorem c9_validation_failure_no_execution :
    ∀ fresh uid files jd svc,
      files = [] ∨ jdValidV2 jd = false →
      (resumeRouteV2 fresh uid files jd svc).resp.httpStatus = 400 ∧
      (resumeRouteV2 fresh uid files jd svc).executions = [] ∧
      (resumeRouteV2 fresh uid files jd svc).statusWrites = [] ∧
      (resumeRouteV2 fresh uid files jd svc).results = [] := by
  intro fresh uid files jd svc h
  rcases h with h | h
  · subst h; exact ⟨rfl, rfl, rfl, rfl⟩
  · by_cases h1 : files.isEmpty
    · simp [resumeRouteV2, h1]
    · simp [resumeRouteV2, h1, h]

/-- C9 witness: the validation theorem at a zero-file submission and at a
five-character description. -/
theorem c9_witness :
    (resumeRouteV2 0 7 [] (some "valid description") (.svcOk (Json.jobj []))).resp.httpStatus = 400 ∧
    (resumeRouteV2 0 7 [] (some "valid description") (.svcOk (Json.jobj []))).executions = [] ∧
    (resumeRouteV2 0 7 [] (some "valid description") (.svcOk (Json.jobj []))).statusWrites = [] ∧
    (resumeRouteV2 0 7 [] (some "valid description") (.svcOk (Json.jobj []))).results = [] :=
  c9_validation_failure_no_execution 0 7 [] (some "valid description")
    (.svcOk (Json.jobj [])) (Or.inl rfl)

/-- C10: for an execution owned by the requester with no results row, the
retrieval endpoint answers 200 with null data and null summary while the
status is still the in-progress value processing, and 404 results-not-found
for any other status. -/
theorem c10_get_result_pending_vs_missing :
    ∀ (e : ExecLookup) (requester : Nat), e.userId = requester →
      (e.status = "processing" →
        getResultHandler requester (some e) none = .okRes "processing" none none) ∧
      (e.status ≠ "processing" →
        getResultHandler requester (some e) none = .resultsNotFound) := by
  intro e requester h
  constructor
  · intro hs
    simp [getResultHandler, h, hs]
  · intro hs
    simp [getResultHandler, h, hs]

/-- C10 witness: the retrieval theorem at a processing-status execution and a
completed-status execution owned by user 7. -/
theorem c10_witness :
    (getResultHandler 7 (some { id := uuidStr 0, userId := 7, status := "processing" }) none
      = .okRes "processing" none none) ∧
    (getResultHandler 7 (some { id := uuidStr 0, userId := 7, status := "completed" }) none
      = .resultsNotFound) :=
  ⟨(c10_get_result_pending_vs_missing { id := uuidStr 0, userId := 7, status := "processing" }
      7 rfl).1 rfl,
    (c10_get_result_pending_vs_missing { id := uuidStr 0, userId := 7, status := "completed" }
      7 rfl).2 (by decide)⟩

end WorkBot
